import Mathlib

/-!
Verification of the DataONE notification-service client
(`NotificationClient` in `client.ts`, legacy `NotificationService`).

The client code is embedded shallowly: the asynchronous request pipeline is
sequential and deterministic once the resolved values of the injected
callables (token supplier, PID validator) and the transport response are
fixed, so it is modelled as a pure function from those resolved values to a
result together with an explicit trace of the effect invocations
(validator calls, token-supplier calls, transport calls, JSON decodes).
-/

namespace DataoneNotifications

/-- ECMAScript whitespace code points recognised by `String.prototype.trim`
(WhiteSpace plus LineTerminator). -/
def jsWhitespace (c : Char) : Bool :=
  [9, 10, 11, 12, 13, 32, 160, 5760, 8192, 8193, 8194, 8195, 8196, 8197,
   8198, 8199, 8200, 8201, 8202, 8232, 8233, 8239, 8287, 12288,
   65279].contains c.toNat

/-- JavaScript `String.prototype.trim`: strip leading and trailing
ECMAScript whitespace. -/
def jsTrim (s : String) : String :=
  String.mk (((s.data.dropWhile jsWhitespace).reverse.dropWhile jsWhitespace).reverse)

/-- Uppercase hexadecimal digit for a value below 16. -/
def hexDigit (n : Nat) : Char :=
  if n < 10 then Char.ofNat (48 + n) else Char.ofNat (55 + n)

/-- UTF-8 encoding of a single code point `n`, as byte values. -/
def utf8BytesOfNat (n : Nat) : List Nat :=
  if n < 128 then [n]
  else if n < 2048 then [192 + n / 64, 128 + n % 64]
  else if n < 65536 then [224 + n / 4096, 128 + (n / 64) % 64, 128 + n % 64]
  else [240 + n / 262144, 128 + (n / 4096) % 64, 128 + (n / 64) % 64, 128 + n % 64]

/-- UTF-8 encoding of a single character, as byte values. -/
def utf8Bytes (c : Char) : List Nat :=
  utf8BytesOfNat c.toNat

/-- Characters left unescaped by JavaScript `encodeURIComponent`:
ASCII letters, digits, and `- _ . ! ~ * ( )` together with the apostrophe
(code 39). -/
def isUnreservedURI (c : Char) : Bool :=
  (65 ≤ c.toNat && c.toNat ≤ 90) || (97 ≤ c.toNat && c.toNat ≤ 122) ||
  (48 ≤ c.toNat && c.toNat ≤ 57) ||
  [45, 95, 46, 33, 126, 42, 39, 40, 41].contains c.toNat

/-- Percent-escape of one byte: `%XY` with uppercase hex digits. -/
def percentBytes (b : Nat) : List Char :=
  [Char.ofNat 37, hexDigit (b / 16), hexDigit (b % 16)]

/-- One character of `encodeURIComponent` output: kept verbatim when
unreserved, otherwise every UTF-8 byte is percent-escaped. -/
def encodeChar (c : Char) : List Char :=
  if isUnreservedURI c then [c] else ((utf8Bytes c).map percentBytes).flatten

/-- JavaScript `encodeURIComponent`. -/
def encodeURIComponent (s : String) : String :=
  String.mk ((s.data.map encodeChar).flatten)

/-- The `ERROR_MESSAGES` constant of `client.ts`. -/
structure ErrorMessages where
  prefixUrl : String
  getToken : String
  validatePID : String
  resourceTypes : String
  resourceType : String
  noPid : String
  invalidPid : String
  noToken : String

/-- Error messages used by the client, verbatim from the source. -/
def ERROR_MESSAGES : ErrorMessages :=
  { prefixUrl := "prefixUrl is required"
    getToken := "A getToken function is required"
    validatePID := "validatePID must be a function"
    resourceTypes := "resourceTypes must be a non-empty array of strings"
    resourceType := "Invalid resource type"
    noPid := "PID is required"
    invalidPid := "PID is invalid"
    noToken := "Token is required" }

deriving instance DecidableEq for Except

/-- A thrown JavaScript error: `TypeError(msg)`, `Error(msg)`, or the
error thrown by `response.json()` on a malformed body (propagated
unmodified, carried here by its message). -/
inductive JsError where
  | typeError (message : String)
  | error (message : String)
  | parseError (message : String)
deriving Repr, DecidableEq

/-- Request headers as an ordered key-value list (a JS object literal). -/
abbrev Headers := List (String × String)

/-- The transport response consumed by the client: a status code and the
result of its JSON-decode operation (`Except.error` models a body whose
JSON parse throws). -/
structure Response where
  status : Nat
  body : Except String String
deriving Repr, DecidableEq

/-- The injected transport (`ky` instance): endpoint, method, headers in,
response out. -/
abbrev Transport := String → String → Headers → Response

/-- Resolved behaviour of the injected callables for one call: the value
the PID validator resolves to on each input, and the value the token
supplier resolves to (`none` models `null`/`undefined`). -/
structure Behavior where
  validatePID : String → Bool
  getToken : Option String

/-- JavaScript falsiness of the resolved token (`!token`):
`null`/`undefined` or the empty string. -/
def tokenFalsy : Option String → Bool
  | none => true
  | some s => s == ""

/-- Client state after a successful construction: the normalized
`prefixUrl` and the normalized resource-type set (a JS `Set`, modelled as
its insertion-ordered, duplicate-free element list). -/
structure Client where
  prefixUrl : String
  resourceTypes : List String
deriving Repr, DecidableEq

/-- Trace of effect invocations during one call. -/
structure Trace where
  validatorCalls : Nat := 0
  tokenCalls : Nat := 0
  transportCalls : Nat := 0
  jsonCalls : Nat := 0
  transportArgs : Option (String × String × Headers) := none
deriving Repr, DecidableEq

/-- Endpoint component of the recorded transport invocation. -/
def Trace.endpoint (tr : Trace) : Option String :=
  tr.transportArgs.map (fun a => a.1)

/-- Method component of the recorded transport invocation. -/
def Trace.method (tr : Trace) : Option String :=
  tr.transportArgs.map (fun a => a.2.1)

/-- Headers component of the recorded transport invocation. -/
def Trace.sentHeaders (tr : Trace) : Option Headers :=
  tr.transportArgs.map (fun a => a.2.2)

/-- Outcome of one call: the settled value of the returned promise
(`Option String` models the parsed JSON body, `none` models `undefined`)
and the effect trace. -/
structure RequestOutcome where
  result : Except JsError (Option String)
  trace : Trace
deriving Repr, DecidableEq

/-- Caller-supplied per-call options object. An `Option` field set to
`none` models the key being absent from the object (absence and an
explicit `undefined` behave identically under destructuring defaults and
spread). Other pass-through `ky` options (timeout, hooks, signal, ...) are
opaque to the modelled observables and omitted. -/
structure CallOptions where
  method : Option String := none
  pidRequired : Option Bool := none
  headers : Option Headers := none
deriving Repr, DecidableEq

/-- The options object received by the internal request routine (the
`InternalRequestOptions` shape): `resourceType` plus the caller fields. -/
structure InternalRequestOptions where
  resourceType : String
  method : Option String := none
  pidRequired : Option Bool := none
  headers : Option Headers := none
deriving Repr, DecidableEq

/-- Whether a headers object carries an `Authorization` key. -/
def hasAuthorizationKey (h : Headers) : Bool :=
  h.any (fun p => p.1 == "Authorization")

namespace NotificationClient

/-- `NotificationClient.request` from `client.ts`, embedded over resolved
callable values. Mirrors, in order: destructuring defaults for `method`
and `pidRequired`; trim and set-membership check of `resourceType`; trim
of `pid` with `null`/`undefined` as empty; the required-PID check; the
conditional PID-validator invocation; the token-supplier invocation and
falsiness check; endpoint construction by `encodeURIComponent`; the `ky`
call whose options object is `{ method, headers: authHeaders, ...rest }`
(so a `headers` key present in the caller options replaces the
Authorization object wholesale); and the `204 / 205 / 304` no-body check
before `response.json()`. -/
def request (c : Client) (b : Behavior) (t : Transport) (pid : Option String)
    (opts : InternalRequestOptions) : RequestOutcome :=
  let method := opts.method.getD "GET"
  let pidRequired := opts.pidRequired.getD true
  let normalizedResourceType := jsTrim opts.resourceType
  if normalizedResourceType ∉ c.resourceTypes then
    ⟨.error (.typeError ERROR_MESSAGES.resourceType), {}⟩
  else
    let normalizedPid := (pid.map jsTrim).getD ""
    if pidRequired = true ∧ normalizedPid.length = 0 then
      ⟨.error (.typeError ERROR_MESSAGES.noPid), {}⟩
    else
      let validatorCalls := if pidRequired = true ∧ normalizedPid.length > 0 then 1 else 0
      let isValid :=
        if pidRequired = true ∧ normalizedPid.length > 0 then b.validatePID normalizedPid
        else true
      if isValid = false then
        ⟨.error (.typeError ERROR_MESSAGES.invalidPid), { validatorCalls := validatorCalls }⟩
      else if tokenFalsy b.getToken then
        ⟨.error (.error ERROR_MESSAGES.noToken),
         { validatorCalls := validatorCalls, tokenCalls := 1 }⟩
      else
        let token := b.getToken.getD ""
        let endpoint :=
          if pidRequired = true ∧ normalizedPid.length > 0 then
            encodeURIComponent normalizedResourceType ++ "/" ++ encodeURIComponent normalizedPid
          else
            encodeURIComponent normalizedResourceType
        let authHeaders : Headers := [("Authorization", "Bearer " ++ token)]
        let sentHeaders := opts.headers.getD authHeaders
        let response := t endpoint method sentHeaders
        let callTrace : Trace :=
          { validatorCalls := validatorCalls, tokenCalls := 1, transportCalls := 1,
            transportArgs := some (endpoint, method, sentHeaders) }
        if response.status = 204 ∨ response.status = 205 ∨ response.status = 304 then
          ⟨.ok none, callTrace⟩
        else
          match response.body with
          | .ok v => ⟨.ok (some v), { callTrace with jsonCalls := 1 }⟩
          | .error e => ⟨.error (.parseError e), { callTrace with jsonCalls := 1 }⟩

/-- JS object-spread of the caller options over the fixed fields of an
operation, `{ resourceType, method, pidRequired, ...options }`: a key
present in `options` overrides the fixed value. -/
def spreadOptions (options : CallOptions) (resourceType : String) (method : String)
    (pidRequired : Bool) : InternalRequestOptions :=
  { resourceType := resourceType
    method := some (options.method.getD method)
    pidRequired := some (options.pidRequired.getD pidRequired)
    headers := options.headers }

/-- `NotificationClient.subscribe`. -/
def subscribe (c : Client) (b : Behavior) (t : Transport) (pid : Option String)
    (resourceType : String) (options : CallOptions) : RequestOutcome :=
  request c b t pid (spreadOptions options resourceType "POST" true)

/-- `NotificationClient.unsubscribe` (its resolved value is discarded by
the `Promise<void>` signature; the outcome is returned here so the trace
stays observable). -/
def unsubscribe (c : Client) (b : Behavior) (t : Transport) (pid : Option String)
    (resourceType : String) (options : CallOptions) : RequestOutcome :=
  request c b t pid (spreadOptions options resourceType "DELETE" true)

/-- `NotificationClient.getSubscriptions`: always passes `null` as the
PID and `pidRequired: false`. -/
def getSubscriptions (c : Client) (b : Behavior) (t : Transport)
    (resourceType : String) (options : CallOptions) : RequestOutcome :=
  request c b t none (spreadOptions options resourceType "GET" false)

/-- First-occurrence deduplication (the order a JS `Set` iterates in),
carrying the set of elements already emitted. -/
def dedupFirstAux (seen : List String) : List String → List String
  | [] => []
  | x :: xs =>
    if seen.contains x then dedupFirstAux seen xs
    else x :: dedupFirstAux (x :: seen) xs

/-- First-occurrence deduplication, `Array.from(new Set(l))`. -/
def dedupFirst (l : List String) : List String :=
  dedupFirstAux [] l

/-- `NotificationClient.normalizeResourceTypes`: trim each entry, drop
empties, dedupe preserving first occurrences. -/
def normalizeResourceTypes (resourceTypes : List String) : List String :=
  dedupFirst ((resourceTypes.map jsTrim).filter (fun t => t.length > 0))

/-- Dynamic-typed constructor arguments. `getTokenValid` stands for
`typeof getToken === "function"`; `validatePIDPresent` for the truthiness
of `validatePID` and `validatePIDValid` for it being a function;
`resourceTypes` is the argument after defaulting (`DEFAULT_TYPES` when the
key is absent). -/
structure ConstructorInput where
  prefixUrl : String
  getTokenValid : Bool
  validatePIDPresent : Bool
  validatePIDValid : Bool
  resourceTypes : List String
deriving Repr, DecidableEq

/-- Strip trailing `/` characters, `prefixUrl.replace(/\/+$/, "")`. -/
def stripTrailingSlashes (s : String) : String :=
  String.mk ((s.data.reverse.dropWhile (fun c => c == Char.ofNat 47)).reverse)

/-- The `NotificationClient` constructor: the four validation checks in
source order, then the normalized client state. -/
def construct (input : ConstructorInput) : Except JsError Client :=
  if input.prefixUrl = "" then .error (.typeError ERROR_MESSAGES.prefixUrl)
  else if input.getTokenValid = false then .error (.typeError ERROR_MESSAGES.getToken)
  else if input.validatePIDPresent = true ∧ input.validatePIDValid = false then
    .error (.typeError ERROR_MESSAGES.validatePID)
  else
    let normalizedTypes := normalizeResourceTypes input.resourceTypes
    if normalizedTypes.length = 0 then
      .error (.typeError ERROR_MESSAGES.resourceTypes)
    else
      .ok { prefixUrl := stripTrailingSlashes input.prefixUrl
            resourceTypes := normalizedTypes }

end NotificationClient

namespace NotificationService

/-- JS object spread `{ ...a, ...b }` on two key-value objects: keys of
`a` in order (value replaced when `b` redefines the key), then keys of `b`
not in `a`. -/
def objSpread (a b : Headers) : Headers :=
  (a.map fun p =>
    match b.find? (fun q => q.1 == p.1) with
    | some q => (p.1, q.2)
    | none => p) ++
  b.filter (fun q => !(a.any fun p => p.1 == q.1))

/-- JavaScript falsiness of the `pid` argument (`!pid`). -/
def pidFalsy : Option String → Bool
  | none => true
  | some s => s == ""

/-- Legacy `NotificationService._request` (from the earlier JS client).
Differences from `NotificationClient.request`: no trimming of
`resourceType` or `pid`; the PID falsiness check; the validator invoked
whenever `pidRequired`; and the caller `headers` destructured apart from
`rest` and merged per key over the Authorization header,
`{ ...authHeader, ...(headers || \x7b\x7d) }`. -/
def _request (c : Client) (b : Behavior) (t : Transport) (pid : Option String)
    (opts : InternalRequestOptions) : RequestOutcome :=
  let method := opts.method.getD "GET"
  let pidRequired := opts.pidRequired.getD true
  if opts.resourceType ∉ c.resourceTypes then
    ⟨.error (.typeError ERROR_MESSAGES.resourceType), {}⟩
  else if pidRequired = true ∧ pidFalsy pid then
    ⟨.error (.typeError ERROR_MESSAGES.noPid), {}⟩
  else
    let pidStr := pid.getD ""
    let validatorCalls := if pidRequired = true then 1 else 0
    let ok := if pidRequired = true then b.validatePID pidStr else true
    if ok = false then
      ⟨.error (.typeError ERROR_MESSAGES.invalidPid), { validatorCalls := validatorCalls }⟩
    else if tokenFalsy b.getToken then
      ⟨.error (.error ERROR_MESSAGES.noToken),
       { validatorCalls := validatorCalls, tokenCalls := 1 }⟩
    else
      let token := b.getToken.getD ""
      let authHeader : Headers := [("Authorization", "Bearer " ++ token)]
      let mergedHeaders := objSpread authHeader (opts.headers.getD [])
      let endpoint0 := encodeURIComponent opts.resourceType
      let endpoint :=
        if pidRequired = true then endpoint0 ++ "/" ++ encodeURIComponent pidStr
        else endpoint0
      let response := t endpoint method mergedHeaders
      let callTrace : Trace :=
        { validatorCalls := validatorCalls, tokenCalls := 1, transportCalls := 1,
          transportArgs := some (endpoint, method, mergedHeaders) }
      if response.status = 204 ∨ response.status = 205 ∨ response.status = 304 then
        ⟨.ok none, callTrace⟩
      else
        match response.body with
        | .ok v => ⟨.ok (some v), { callTrace with jsonCalls := 1 }⟩
        | .error e => ⟨.error (.parseError e), { callTrace with jsonCalls := 1 }⟩

end NotificationService

namespace NotificationClient

/-! ### Branch characterizations of the request pipeline -/

theorem request_invalid_type (c : Client) (b : Behavior) (t : Transport)
    (pid : Option String) (opts : InternalRequestOptions)
    (h : jsTrim opts.resourceType ∉ c.resourceTypes) :
    request c b t pid opts = ⟨.error (.typeError ERROR_MESSAGES.resourceType), {}⟩ := by
  unfold request
  simp [h]

theorem request_no_pid (c : Client) (b : Behavior) (t : Transport)
    (pid : Option String) (opts : InternalRequestOptions)
    (htype : jsTrim opts.resourceType ∈ c.resourceTypes)
    (hpr : opts.pidRequired.getD true = true)
    (hnp : (pid.map jsTrim).getD "" = "") :
    request c b t pid opts = ⟨.error (.typeError ERROR_MESSAGES.noPid), {}⟩ := by
  unfold request
  simp [htype, hpr, hnp]

theorem request_invalid_pid (c : Client) (b : Behavior) (t : Transport)
    (pid : Option String) (opts : InternalRequestOptions)
    (htype : jsTrim opts.resourceType ∈ c.resourceTypes)
    (hpr : opts.pidRequired.getD true = true)
    (hnpl : 0 < ((pid.map jsTrim).getD "").length)
    (hval : b.validatePID ((pid.map jsTrim).getD "") = false) :
    request c b t pid opts =
      ⟨.error (.typeError ERROR_MESSAGES.invalidPid), { validatorCalls := 1 }⟩ := by
  have hne : ((pid.map jsTrim).getD "").length ≠ 0 := Nat.pos_iff_ne_zero.mp hnpl
  unfold request
  simp [htype, hpr, hnpl, hne, hval]

theorem request_no_token (c : Client) (b : Behavior) (t : Transport)
    (pid : Option String) (opts : InternalRequestOptions)
    (htype : jsTrim opts.resourceType ∈ c.resourceTypes)
    (hpr : opts.pidRequired.getD true = true)
    (hnpl : 0 < ((pid.map jsTrim).getD "").length)
    (hval : b.validatePID ((pid.map jsTrim).getD "") = true)
    (htok : tokenFalsy b.getToken = true) :
    request c b t pid opts =
      ⟨.error (.error ERROR_MESSAGES.noToken), { validatorCalls := 1, tokenCalls := 1 }⟩ := by
  have hne : ((pid.map jsTrim).getD "").length ≠ 0 := Nat.pos_iff_ne_zero.mp hnpl
  unfold request
  simp [htype, hpr, hnpl, hne, hval, htok]

theorem request_reaches_transport (c : Client) (b : Behavior) (t : Transport)
    (pid : Option String) (opts : InternalRequestOptions)
    (htype : jsTrim opts.resourceType ∈ c.resourceTypes)
    (hpr : opts.pidRequired.getD true = true)
    (hnpl : 0 < ((pid.map jsTrim).getD "").length)
    (hval : b.validatePID ((pid.map jsTrim).getD "") = true)
    (htok : tokenFalsy b.getToken = false) :
    request c b t pid opts =
      (let np := (pid.map jsTrim).getD ""
       let endpoint :=
         encodeURIComponent (jsTrim opts.resourceType) ++ "/" ++ encodeURIComponent np
       let method := opts.method.getD "GET"
       let sent := opts.headers.getD [("Authorization", "Bearer " ++ b.getToken.getD "")]
       let response := t endpoint method sent
       let callTrace : Trace :=
         { validatorCalls := 1, tokenCalls := 1, transportCalls := 1,
           transportArgs := some (endpoint, method, sent) }
       if response.status = 204 ∨ response.status = 205 ∨ response.status = 304 then
         ⟨.ok none, callTrace⟩
       else
         match response.body with
         | .ok v => ⟨.ok (some v), { callTrace with jsonCalls := 1 }⟩
         | .error e => ⟨.error (.parseError e), { callTrace with jsonCalls := 1 }⟩) := by
  have hne : ((pid.map jsTrim).getD "").length ≠ 0 := Nat.pos_iff_ne_zero.mp hnpl
  unfold request
  simp [htype, hpr, hnpl, hne, hval, htok]

theorem request_reaches_transport_no_pid_required (c : Client) (b : Behavior) (t : Transport)
    (pid : Option String) (opts : InternalRequestOptions)
    (htype : jsTrim opts.resourceType ∈ c.resourceTypes)
    (hpr : opts.pidRequired.getD true = false)
    (htok : tokenFalsy b.getToken = false) :
    request c b t pid opts =
      (let endpoint := encodeURIComponent (jsTrim opts.resourceType)
       let method := opts.method.getD "GET"
       let sent := opts.headers.getD [("Authorization", "Bearer " ++ b.getToken.getD "")]
       let response := t endpoint method sent
       let callTrace : Trace :=
         { validatorCalls := 0, tokenCalls := 1, transportCalls := 1,
           transportArgs := some (endpoint, method, sent) }
       if response.status = 204 ∨ response.status = 205 ∨ response.status = 304 then
         ⟨.ok none, callTrace⟩
       else
         match response.body with
         | .ok v => ⟨.ok (some v), { callTrace with jsonCalls := 1 }⟩
         | .error e => ⟨.error (.parseError e), { callTrace with jsonCalls := 1 }⟩) := by
  unfold request
  simp [htype, hpr, htok]

end NotificationClient

/-! ### Concrete fixtures for the witnesses -/

/-- A sample constructed client. -/
def sampleClient : Client :=
  { prefixUrl := "https://api.example.org/v1"
    resourceTypes := ["datasetChanges", "citations"] }

/-- A sample behaviour: always-approving validator, token `"token-123"`. -/
def sampleBehavior : Behavior :=
  { validatePID := fun _ => true, getToken := some "token-123" }

/-- A sample behaviour whose PID validator resolves to `false`. -/
def rejectingBehavior : Behavior :=
  { validatePID := fun _ => false, getToken := some "token-123" }

/-- A sample behaviour whose token supplier resolves to the empty string. -/
def emptyTokenBehavior : Behavior :=
  { validatePID := fun _ => true, getToken := some "" }

/-- A sample transport answering status 200 with body `"sub"`. -/
def sampleTransport : Transport :=
  fun _ _ _ => { status := 200, body := Except.ok "sub" }

namespace NotificationClient

/-- C1: for every call to a public operation (`subscribe`, `unsubscribe`,
`getSubscriptions`) whose trimmed resource type is not a member of the
allowed resource-type set, the call fails with the `TypeError`
`"Invalid resource type"` and neither the PID validator nor the token
supplier is invoked during the call. -/
theorem C1_invalid_resource_type_short_circuits (c : Client) (b : Behavior) (t : Transport)
    (pid : Option String) (resourceType : String) (options : CallOptions)
    (h : jsTrim resourceType ∉ c.resourceTypes) :
    ((subscribe c b t pid resourceType options).result =
        .error (.typeError "Invalid resource type") ∧
      (subscribe c b t pid resourceType options).trace.validatorCalls = 0 ∧
      (subscribe c b t pid resourceType options).trace.tokenCalls = 0) ∧
    ((unsubscribe c b t pid resourceType options).result =
        .error (.typeError "Invalid resource type") ∧
      (unsubscribe c b t pid resourceType options).trace.validatorCalls = 0 ∧
      (unsubscribe c b t pid resourceType options).trace.tokenCalls = 0) ∧
    ((getSubscriptions c b t resourceType options).result =
        .error (.typeError "Invalid resource type") ∧
      (getSubscriptions c b t resourceType options).trace.validatorCalls = 0 ∧
      (getSubscriptions c b t resourceType options).trace.tokenCalls = 0) := by
  have hs := request_invalid_type c b t pid (spreadOptions options resourceType "POST" true) h
  have hu := request_invalid_type c b t pid (spreadOptions options resourceType "DELETE" true) h
  have hg := request_invalid_type c b t none (spreadOptions options resourceType "GET" false) h
  refine ⟨⟨?_, ?_, ?_⟩, ⟨?_, ?_, ?_⟩, ⟨?_, ?_, ?_⟩⟩ <;>
    simp [subscribe, unsubscribe, getSubscriptions, hs, hu, hg, ERROR_MESSAGES]

/-- Witness for C1: the unconfigured resource type `"bogus"` against a
concrete client. -/
theorem C1_witness :
    jsTrim "bogus" ∉ sampleClient.resourceTypes ∧
    (subscribe sampleClient sampleBehavior sampleTransport
        (some "pid-123") "bogus" {}).result = .error (.typeError "Invalid resource type") ∧
    (subscribe sampleClient sampleBehavior sampleTransport
        (some "pid-123") "bogus" {}).trace.validatorCalls = 0 ∧
    (subscribe sampleClient sampleBehavior sampleTransport
        (some "pid-123") "bogus" {}).trace.tokenCalls = 0 := by
  refine ⟨by decide, ?_⟩
  exact (C1_invalid_resource_type_short_circuits sampleClient sampleBehavior sampleTransport
    (some "pid-123") "bogus" {} (by decide)).1

/-- C3: any constructor input that passes the earlier checks (non-empty
`prefixUrl`, function `getToken`, well-typed `validatePID`) but whose
resource types normalize (trim, drop empties, dedupe) to the empty list is
rejected with the `TypeError`
`"resourceTypes must be a non-empty array of strings"`; no client is
produced. -/
theorem C3_empty_normalized_resource_types (input : ConstructorInput)
    (h1 : input.prefixUrl ≠ "") (h2 : input.getTokenValid = true)
    (h3 : input.validatePIDPresent = true → input.validatePIDValid = true)
    (h4 : normalizeResourceTypes input.resourceTypes = []) :
    construct input =
      .error (.typeError "resourceTypes must be a non-empty array of strings") := by
  have h3x : ¬(input.validatePIDPresent = true ∧ input.validatePIDValid = false) := by
    rintro ⟨ha, hb⟩
    rw [h3 ha] at hb
    exact absurd hb (by decide)
  unfold construct
  simp [h1, h2, h3x, h4, ERROR_MESSAGES]

/-- Witness for C3: the empty array, an array of blank strings, and
duplicates of a blank string. -/
theorem C3_witness :
    construct { prefixUrl := "https://api.example.org/v1", getTokenValid := true,
                validatePIDPresent := false, validatePIDValid := false,
                resourceTypes := [] } =
      .error (.typeError "resourceTypes must be a non-empty array of strings") ∧
    construct { prefixUrl := "https://api.example.org/v1", getTokenValid := true,
                validatePIDPresent := false, validatePIDValid := false,
                resourceTypes := [" ", "\t\t"] } =
      .error (.typeError "resourceTypes must be a non-empty array of strings") ∧
    construct { prefixUrl := "https://api.example.org/v1", getTokenValid := true,
                validatePIDPresent := false, validatePIDValid := false,
                resourceTypes := ["  ", "  "] } =
      .error (.typeError "resourceTypes must be a non-empty array of strings") := by
  refine ⟨?_, ?_, ?_⟩ <;>
    exact C3_empty_normalized_resource_types _ (by decide) (by decide) (by decide) (by decide)

/-- C4: with a valid client and an allowed resource type, `subscribe` and
`unsubscribe` reject a PID that is `null`/`undefined`, empty, or trims to
empty with the `TypeError` `"PID is required"`, invoking neither the PID
validator nor the token supplier (callers cannot override `pidRequired`
through the typed options, modelled by `options.pidRequired = none`). -/
theorem C4_missing_pid_rejected (c : Client) (b : Behavior) (t : Transport)
    (resourceType : String) (options : CallOptions) (pid : Option String)
    (htype : jsTrim resourceType ∈ c.resourceTypes)
    (hopt : options.pidRequired = none)
    (hpid : (pid.map jsTrim).getD "" = "") :
    ((subscribe c b t pid resourceType options).result =
        .error (.typeError "PID is required") ∧
      (subscribe c b t pid resourceType options).trace.validatorCalls = 0 ∧
      (subscribe c b t pid resourceType options).trace.tokenCalls = 0) ∧
    ((unsubscribe c b t pid resourceType options).result =
        .error (.typeError "PID is required") ∧
      (unsubscribe c b t pid resourceType options).trace.validatorCalls = 0 ∧
      (unsubscribe c b t pid resourceType options).trace.tokenCalls = 0) := by
  have hs := request_no_pid c b t pid (spreadOptions options resourceType "POST" true)
    htype (by simp [spreadOptions, hopt]) hpid
  have hu := request_no_pid c b t pid (spreadOptions options resourceType "DELETE" true)
    htype (by simp [spreadOptions, hopt]) hpid
  refine ⟨⟨?_, ?_, ?_⟩, ⟨?_, ?_, ?_⟩⟩ <;> simp [subscribe, unsubscribe, hs, hu, ERROR_MESSAGES]

/-- Witness for C4: a `null` PID and a whitespace-only PID. -/
theorem C4_witness :
    ((subscribe sampleClient sampleBehavior sampleTransport
        none "datasetChanges" {}).result = .error (.typeError "PID is required") ∧
      (subscribe sampleClient sampleBehavior sampleTransport
        none "datasetChanges" {}).trace.validatorCalls = 0 ∧
      (subscribe sampleClient sampleBehavior sampleTransport
        none "datasetChanges" {}).trace.tokenCalls = 0) ∧
    (unsubscribe sampleClient sampleBehavior sampleTransport
        (some "   ") "citations" {}).result = .error (.typeError "PID is required") := by
  refine ⟨(C4_missing_pid_rejected sampleClient sampleBehavior sampleTransport
    "datasetChanges" {} none (by decide) (by decide) (by decide)).1, ?_⟩
  exact (C4_missing_pid_rejected sampleClient sampleBehavior sampleTransport
    "citations" {} (some "   ") (by decide) (by decide) (by decide)).2.1

/-- C5: with a valid client whose PID validator resolves to `false`,
`subscribe` and `unsubscribe` with an allowed resource type and a PID that
trims to a non-empty string fail with the `TypeError` `"PID is invalid"`,
and the token supplier is never invoked. -/
theorem C5_invalid_pid_rejected (c : Client) (b : Behavior) (t : Transport)
    (resourceType : String) (options : CallOptions) (pid : String)
    (htype : jsTrim resourceType ∈ c.resourceTypes)
    (hopt : options.pidRequired = none)
    (hnpl : 0 < (jsTrim pid).length)
    (hval : b.validatePID (jsTrim pid) = false) :
    ((subscribe c b t (some pid) resourceType options).result =
        .error (.typeError "PID is invalid") ∧
      (subscribe c b t (some pid) resourceType options).trace.tokenCalls = 0) ∧
    ((unsubscribe c b t (some pid) resourceType options).result =
        .error (.typeError "PID is invalid") ∧
      (unsubscribe c b t (some pid) resourceType options).trace.tokenCalls = 0) := by
  have hs := request_invalid_pid c b t (some pid) (spreadOptions options resourceType "POST" true)
    htype (by simp [spreadOptions, hopt]) (by simpa using hnpl) (by simpa using hval)
  have hu := request_invalid_pid c b t (some pid) (spreadOptions options resourceType "DELETE" true)
    htype (by simp [spreadOptions, hopt]) (by simpa using hnpl) (by simpa using hval)
  refine ⟨⟨?_, ?_⟩, ⟨?_, ?_⟩⟩ <;> simp [subscribe, unsubscribe, hs, hu, ERROR_MESSAGES]

/-- Witness for C5: a rejecting validator at the PID `"pid-123"`. -/
theorem C5_witness :
    (subscribe sampleClient rejectingBehavior sampleTransport
        (some "pid-123") "datasetChanges" {}).result = .error (.typeError "PID is invalid") ∧
    (subscribe sampleClient rejectingBehavior sampleTransport
        (some "pid-123") "datasetChanges" {}).trace.tokenCalls = 0 := by
  exact (C5_invalid_pid_rejected sampleClient rejectingBehavior sampleTransport
    "datasetChanges" {} "pid-123" (by decide) (by decide) (by decide) (by decide)).1

/-- C6: with a valid client whose token supplier resolves to an empty or
falsy value, a PID-required call (`subscribe` or `unsubscribe`) with an
allowed resource type and a valid non-empty PID fails with the `Error`
`"Token is required"`; the PID validator was invoked exactly once and the
transport is never invoked. -/
theorem C6_missing_token_rejected (c : Client) (b : Behavior) (t : Transport)
    (resourceType : String) (options : CallOptions) (pid : String)
    (htype : jsTrim resourceType ∈ c.resourceTypes)
    (hopt : options.pidRequired = none)
    (hnpl : 0 < (jsTrim pid).length)
    (hval : b.validatePID (jsTrim pid) = true)
    (htok : tokenFalsy b.getToken = true) :
    ((subscribe c b t (some pid) resourceType options).result =
        .error (.error "Token is required") ∧
      (subscribe c b t (some pid) resourceType options).trace.validatorCalls = 1 ∧
      (subscribe c b t (some pid) resourceType options).trace.transportCalls = 0) ∧
    ((unsubscribe c b t (some pid) resourceType options).result =
        .error (.error "Token is required") ∧
      (unsubscribe c b t (some pid) resourceType options).trace.validatorCalls = 1 ∧
      (unsubscribe c b t (some pid) resourceType options).trace.transportCalls = 0) := by
  have hs := request_no_token c b t (some pid) (spreadOptions options resourceType "POST" true)
    htype (by simp [spreadOptions, hopt]) (by simpa using hnpl) (by simpa using hval) htok
  have hu := request_no_token c b t (some pid) (spreadOptions options resourceType "DELETE" true)
    htype (by simp [spreadOptions, hopt]) (by simpa using hnpl) (by simpa using hval) htok
  refine ⟨⟨?_, ?_, ?_⟩, ⟨?_, ?_, ?_⟩⟩ <;> simp [subscribe, unsubscribe, hs, hu, ERROR_MESSAGES]

/-- Witness for C6: an empty-string token at the PID `"pid-123"`. -/
theorem C6_witness :
    tokenFalsy emptyTokenBehavior.getToken = true ∧
    (unsubscribe sampleClient emptyTokenBehavior sampleTransport
        (some "pid-123") "citations" {}).result = .error (.error "Token is required") ∧
    (unsubscribe sampleClient emptyTokenBehavior sampleTransport
        (some "pid-123") "citations" {}).trace.validatorCalls = 1 ∧
    (unsubscribe sampleClient emptyTokenBehavior sampleTransport
        (some "pid-123") "citations" {}).trace.transportCalls = 0 := by
  refine ⟨by decide, ?_⟩
  exact (C6_missing_token_rejected sampleClient emptyTokenBehavior sampleTransport
    "citations" {} "pid-123" (by decide) (by decide) (by decide) (by decide) (by decide)).2

/-- C7: `getSubscriptions` never invokes the PID validator, for every
client, behaviour, transport, resource type, and caller options object
(including options that try to override `pidRequired`). -/
theorem C7_list_never_invokes_validator (c : Client) (b : Behavior) (t : Transport)
    (resourceType : String) (options : CallOptions) :
    (getSubscriptions c b t resourceType options).trace.validatorCalls = 0 := by
  unfold getSubscriptions request spreadOptions
  simp only [Option.map_none', Option.getD_none, Option.getD_some, String.length_empty,
    lt_self_iff_false, and_false, if_false, gt_iff_lt, ite_false]
  split
  · rfl
  · split
    · rfl
    · split
      · rfl
      · split
        · rfl
        · split
          · rfl
          · split <;> rfl

end NotificationClient

/-! ### The percent-encoder never emits a path separator -/

/-- A character code is valid Unicode, hence below `0x110000`. -/
theorem char_toNat_lt (c : Char) : c.toNat < 1114112 := by
  have h : c.val.toNat < 55296 ∨ (57344 ≤ c.val.toNat ∧ c.val.toNat < 1114112) := c.valid
  rcases h with h | ⟨_, h2⟩
  · exact Nat.lt_of_lt_of_le h (by norm_num)
  · exact h2

/-- Every byte emitted by the UTF-8 encoder is below 256. -/
theorem utf8Bytes_lt_256 (c : Char) : ∀ b ∈ utf8Bytes c, b < 256 := by
  intro b hb
  have hc : c.toNat < 1114112 := char_toNat_lt c
  unfold utf8Bytes utf8BytesOfNat at hb
  split at hb
  · simp only [List.mem_singleton] at hb
    omega
  · split at hb
    · simp only [List.mem_cons, List.not_mem_nil, or_false] at hb
      rcases hb with rfl | rfl <;> omega
    · split at hb
      · simp only [List.mem_cons, List.not_mem_nil, or_false] at hb
        rcases hb with rfl | rfl | rfl <;> omega
      · simp only [List.mem_cons, List.not_mem_nil, or_false] at hb
        rcases hb with rfl | rfl | rfl | rfl <;> omega

/-- No hexadecimal digit is the `/` character (code 47). -/
theorem hexDigit_ne_slash : ∀ n < 16, hexDigit n ≠ Char.ofNat 47 := by decide

/-- The encoding of a single character never contains `/`: `/` itself is
not unreserved and every escape consists of `%` and hex digits. -/
theorem slash_not_mem_encodeChar (c : Char) : Char.ofNat 47 ∉ encodeChar c := by
  unfold encodeChar
  split
  · intro hmem
    rename_i h
    simp only [List.mem_singleton] at hmem
    rw [← hmem] at h
    exact absurd h (by decide)
  · intro hmem
    rw [List.mem_flatten] at hmem
    obtain ⟨l, hl, hmem⟩ := hmem
    rw [List.mem_map] at hl
    obtain ⟨bv, hbmem, rfl⟩ := hl
    have hblt := utf8Bytes_lt_256 c bv hbmem
    unfold percentBytes at hmem
    simp only [List.mem_cons, List.not_mem_nil, or_false] at hmem
    rcases hmem with h1 | h2 | h3
    · exact absurd h1 (by decide)
    · exact absurd h2.symm (hexDigit_ne_slash (bv / 16) (by omega))
    · exact absurd h3.symm (hexDigit_ne_slash (bv % 16) (by omega))

/-- `encodeURIComponent` output never contains the `/` character, so each
encoded component stays a single path segment. -/
theorem slash_not_mem_encodeURIComponent (s : String) :
    Char.ofNat 47 ∉ (encodeURIComponent s).data := by
  unfold encodeURIComponent
  intro hmem
  rw [List.mem_flatten] at hmem
  obtain ⟨l, hl, hmem⟩ := hmem
  rw [List.mem_map] at hl
  obtain ⟨ch, _, rfl⟩ := hl
  exact slash_not_mem_encodeChar ch hmem

/-- A non-empty string has positive length. -/
theorem string_length_pos_of_ne_empty (s : String) (h : s ≠ "") : 0 < s.length := by
  cases s with
  | mk data =>
    cases data with
    | nil => exact absurd rfl h
    | cons a l => simp [String.length]

namespace NotificationClient

/-- Inversion: a call that resolves successfully with `pidRequired` in
force reached the transport with the `resourceType/pid` endpoint, the
destructured method, and the callers headers if present (otherwise the
Authorization header). -/
theorem request_ok_transportArgs (c : Client) (b : Behavior) (t : Transport)
    (pid : Option String) (opts : InternalRequestOptions)
    (hpr : opts.pidRequired.getD true = true)
    (hok : ∃ v, (request c b t pid opts).result = Except.ok v) :
    (request c b t pid opts).trace.transportArgs =
      some (encodeURIComponent (jsTrim opts.resourceType) ++ "/" ++
              encodeURIComponent ((pid.map jsTrim).getD ""),
            opts.method.getD "GET",
            opts.headers.getD [("Authorization", "Bearer " ++ b.getToken.getD "")]) := by
  obtain ⟨v, hv⟩ := hok
  by_cases h1 : jsTrim opts.resourceType ∈ c.resourceTypes
  case neg =>
    rw [request_invalid_type c b t pid opts h1] at hv
    exact absurd hv (by simp)
  by_cases h2 : (pid.map jsTrim).getD "" = ""
  case pos =>
    rw [request_no_pid c b t pid opts h1 hpr h2] at hv
    exact absurd hv (by simp)
  have hnpl : 0 < ((pid.map jsTrim).getD "").length := string_length_pos_of_ne_empty _ h2
  by_cases h3 : b.validatePID ((pid.map jsTrim).getD "") = true
  case neg =>
    have h3f : b.validatePID ((pid.map jsTrim).getD "") = false := by simpa using h3
    rw [request_invalid_pid c b t pid opts h1 hpr hnpl h3f] at hv
    exact absurd hv (by simp)
  by_cases h4 : tokenFalsy b.getToken = true
  case pos =>
    rw [request_no_token c b t pid opts h1 hpr hnpl h3 h4] at hv
    exact absurd hv (by simp)
  have h4f : tokenFalsy b.getToken = false := by simpa using h4
  rw [request_reaches_transport c b t pid opts h1 hpr hnpl h3 h4f]
  dsimp only
  split
  · rfl
  · split <;> rfl

/-- Inversion: a call that resolves successfully with `pidRequired`
disabled reached the transport with the bare `resourceType` endpoint. -/
theorem request_ok_transportArgs_no_pid (c : Client) (b : Behavior) (t : Transport)
    (pid : Option String) (opts : InternalRequestOptions)
    (hpr : opts.pidRequired.getD true = false)
    (hok : ∃ v, (request c b t pid opts).result = Except.ok v) :
    (request c b t pid opts).trace.transportArgs =
      some (encodeURIComponent (jsTrim opts.resourceType),
            opts.method.getD "GET",
            opts.headers.getD [("Authorization", "Bearer " ++ b.getToken.getD "")]) := by
  obtain ⟨v, hv⟩ := hok
  by_cases h1 : jsTrim opts.resourceType ∈ c.resourceTypes
  case neg =>
    rw [request_invalid_type c b t pid opts h1] at hv
    exact absurd hv (by simp)
  by_cases h4 : tokenFalsy b.getToken = true
  case pos =>
    have : request c b t pid opts =
        ⟨.error (.error ERROR_MESSAGES.noToken), { validatorCalls := 0, tokenCalls := 1 }⟩ := by
      unfold request
      simp [h1, hpr, h4]
    rw [this] at hv
    exact absurd hv (by simp)
  have h4f : tokenFalsy b.getToken = false := by simpa using h4
  rw [request_reaches_transport_no_pid_required c b t pid opts h1 hpr h4f]
  dsimp only
  split
  · rfl
  · split <;> rfl

/-- Inversion: a successful call sent the callers headers when present,
otherwise the Authorization header. -/
theorem request_ok_sentHeaders (c : Client) (b : Behavior) (t : Transport)
    (pid : Option String) (opts : InternalRequestOptions)
    (hok : ∃ v, (request c b t pid opts).result = Except.ok v) :
    (request c b t pid opts).trace.sentHeaders =
      some (opts.headers.getD [("Authorization", "Bearer " ++ b.getToken.getD "")]) := by
  by_cases hpr : opts.pidRequired.getD true = true
  · have h := request_ok_transportArgs c b t pid opts hpr hok
    simp [Trace.sentHeaders, h]
  · have hprf : opts.pidRequired.getD true = false := by simpa using hpr
    have h := request_ok_transportArgs_no_pid c b t pid opts hprf hok
    simp [Trace.sentHeaders, h]

/-- C8: for every call that reaches the transport — with `pidRequired` in
force (subscribe/unsubscribe) or disabled (getSubscriptions) — a response
with status 204, 205, or 304 resolves to no value with the JSON-decode
operation never invoked; any other status is decoded, a well-formed body
is returned parsed, and a JSON-parse failure propagates to the caller
unmodified. -/
theorem C8_response_interpretation (c : Client) (b : Behavior) (pid : Option String)
    (opts : InternalRequestOptions) (resp : Response)
    (htype : jsTrim opts.resourceType ∈ c.resourceTypes)
    (hpid : opts.pidRequired.getD true = true →
      0 < ((pid.map jsTrim).getD "").length ∧
      b.validatePID ((pid.map jsTrim).getD "") = true)
    (htok : tokenFalsy b.getToken = false) :
    ((resp.status = 204 ∨ resp.status = 205 ∨ resp.status = 304) →
      (request c b (fun _ _ _ => resp) pid opts).result = Except.ok none ∧
      (request c b (fun _ _ _ => resp) pid opts).trace.jsonCalls = 0) ∧
    (¬(resp.status = 204 ∨ resp.status = 205 ∨ resp.status = 304) →
      (request c b (fun _ _ _ => resp) pid opts).trace.jsonCalls = 1 ∧
      (∀ v, resp.body = Except.ok v →
        (request c b (fun _ _ _ => resp) pid opts).result = Except.ok (some v)) ∧
      (∀ e, resp.body = Except.error e →
        (request c b (fun _ _ _ => resp) pid opts).result =
          Except.error (.parseError e))) := by
  by_cases hpr : opts.pidRequired.getD true = true
  · obtain ⟨hnpl, hval⟩ := hpid hpr
    have h := request_reaches_transport c b (fun _ _ _ => resp) pid opts htype hpr hnpl hval htok
    rw [h]
    dsimp only
    constructor
    · intro hst
      rw [if_pos hst]
      exact ⟨rfl, rfl⟩
    · intro hst
      rw [if_neg hst]
      refine ⟨?_, ?_, ?_⟩
      · cases hb : resp.body <;> simp [hb]
      · intro v hv
        simp [hv]
      · intro e he
        simp [he]
  · have hprf : opts.pidRequired.getD true = false := by simpa using hpr
    have h := request_reaches_transport_no_pid_required c b (fun _ _ _ => resp) pid opts
      htype hprf htok
    rw [h]
    dsimp only
    constructor
    · intro hst
      rw [if_pos hst]
      exact ⟨rfl, rfl⟩
    · intro hst
      rw [if_neg hst]
      refine ⟨?_, ?_, ?_⟩
      · cases hb : resp.body <;> simp [hb]
      · intro v hv
        simp [hv]
      · intro e he
        simp [he]

/-- Witness for C8: a 204 response leaves the body undecoded and resolves
to no value (also on a `getSubscriptions` call, where `pidRequired` is
disabled); a 200 response with a malformed body propagates the parse
error. -/
theorem C8_witness :
    (request sampleClient sampleBehavior (fun _ _ _ => ⟨204, Except.error "SyntaxError"⟩)
        (some "p1") { resourceType := "citations" }).result = Except.ok none ∧
    (request sampleClient sampleBehavior (fun _ _ _ => ⟨204, Except.error "SyntaxError"⟩)
        (some "p1") { resourceType := "citations" }).trace.jsonCalls = 0 ∧
    (getSubscriptions sampleClient sampleBehavior
        (fun _ _ _ => ⟨204, Except.error "SyntaxError"⟩) "citations" {}).result =
      Except.ok none ∧
    (getSubscriptions sampleClient sampleBehavior
        (fun _ _ _ => ⟨204, Except.error "SyntaxError"⟩) "citations" {}).trace.jsonCalls = 0 ∧
    (request sampleClient sampleBehavior (fun _ _ _ => ⟨200, Except.error "SyntaxError"⟩)
        (some "p1") { resourceType := "citations" }).result =
      Except.error (.parseError "SyntaxError") := by
  refine ⟨?_, ?_, ?_, ?_, ?_⟩
  · exact ((C8_response_interpretation sampleClient sampleBehavior (some "p1")
      { resourceType := "citations" } ⟨204, Except.error "SyntaxError"⟩
      (by decide) (by decide) (by decide)).1 (by decide)).1
  · exact ((C8_response_interpretation sampleClient sampleBehavior (some "p1")
      { resourceType := "citations" } ⟨204, Except.error "SyntaxError"⟩
      (by decide) (by decide) (by decide)).1 (by decide)).2
  · exact ((C8_response_interpretation sampleClient sampleBehavior none
      { resourceType := "citations", method := some "GET", pidRequired := some false }
      ⟨204, Except.error "SyntaxError"⟩
      (by decide) (by decide) (by decide)).1 (by decide)).1
  · exact ((C8_response_interpretation sampleClient sampleBehavior none
      { resourceType := "citations", method := some "GET", pidRequired := some false }
      ⟨204, Except.error "SyntaxError"⟩
      (by decide) (by decide) (by decide)).1 (by decide)).2
  · exact ((C8_response_interpretation sampleClient sampleBehavior (some "p1")
      { resourceType := "citations" } ⟨200, Except.error "SyntaxError"⟩
      (by decide) (by decide) (by decide)).2
        (by decide)).2.2 "SyntaxError" rfl

/-- C9: a successful `subscribe` or `unsubscribe` hands the transport the
endpoint `encode(trim resourceType) ++ "/" ++ encode(trim pid)`, a
successful `getSubscriptions` the endpoint `encode(trim resourceType)`
alone; the encoder output never contains `/` (each component stays one
path segment) and `/` itself encodes to `%2F`. -/
theorem C9_endpoint_construction (c : Client) (b : Behavior) (t : Transport)
    (pid : Option String) (resourceType : String) (options : CallOptions)
    (hopt : options.pidRequired = none) :
    ((∃ v, (subscribe c b t pid resourceType options).result = Except.ok v) →
      (subscribe c b t pid resourceType options).trace.endpoint =
        some (encodeURIComponent (jsTrim resourceType) ++ "/" ++
          encodeURIComponent ((pid.map jsTrim).getD ""))) ∧
    ((∃ v, (unsubscribe c b t pid resourceType options).result = Except.ok v) →
      (unsubscribe c b t pid resourceType options).trace.endpoint =
        some (encodeURIComponent (jsTrim resourceType) ++ "/" ++
          encodeURIComponent ((pid.map jsTrim).getD ""))) ∧
    ((∃ v, (getSubscriptions c b t resourceType options).result = Except.ok v) →
      (getSubscriptions c b t resourceType options).trace.endpoint =
        some (encodeURIComponent (jsTrim resourceType))) ∧
    Char.ofNat 47 ∉ (encodeURIComponent ((pid.map jsTrim).getD "")).data ∧
    Char.ofNat 47 ∉ (encodeURIComponent (jsTrim resourceType)).data ∧
    encodeURIComponent "a/b" = "a%2Fb" := by
  refine ⟨?_, ?_, ?_, slash_not_mem_encodeURIComponent _,
    slash_not_mem_encodeURIComponent _, by decide⟩
  · intro hok
    have h := request_ok_transportArgs c b t pid
      (spreadOptions options resourceType "POST" true) (by simp [spreadOptions, hopt]) hok
    unfold subscribe Trace.endpoint
    rw [h]
    simp [spreadOptions]
  · intro hok
    have h := request_ok_transportArgs c b t pid
      (spreadOptions options resourceType "DELETE" true) (by simp [spreadOptions, hopt]) hok
    unfold unsubscribe Trace.endpoint
    rw [h]
    simp [spreadOptions]
  · intro hok
    have h := request_ok_transportArgs_no_pid c b t none
      (spreadOptions options resourceType "GET" false) (by simp [spreadOptions, hopt]) hok
    unfold getSubscriptions Trace.endpoint
    rw [h]
    simp [spreadOptions]

/-- Witness for C9: the PID `"a/b"` yields the single-segment endpoint
`"datasetChanges/a%2Fb"`. -/
theorem C9_witness :
    (subscribe sampleClient sampleBehavior sampleTransport
        (some "a/b") "datasetChanges" {}).trace.endpoint =
      some "datasetChanges/a%2Fb" := by
  have h := (C9_endpoint_construction sampleClient sampleBehavior sampleTransport
    (some "a/b") "datasetChanges" {} rfl).1 ⟨some "sub", by decide⟩
  rw [h]
  decide

/-- C10: the caller options are spread after the fixed fields of each
public operation, so a caller can override `pidRequired` (and the HTTP
method): `subscribe(pid, type, { pidRequired: false })` with a PID that
trims to empty skips the PID-required check and the PID validator
entirely, and the transport receives an endpoint with no PID segment and
the operations POST method (overridable in the same way). -/
theorem C10_spread_allows_overrides (c : Client) (b : Behavior) (t : Transport)
    (pid : Option String) (resourceType : String)
    (htype : jsTrim resourceType ∈ c.resourceTypes)
    (_hpid : (pid.map jsTrim).getD "" = "")
    (htok : tokenFalsy b.getToken = false) :
    (subscribe c b t pid resourceType { pidRequired := some false }).trace.validatorCalls = 0 ∧
    (subscribe c b t pid resourceType { pidRequired := some false }).trace.transportCalls = 1 ∧
    (subscribe c b t pid resourceType { pidRequired := some false }).trace.endpoint =
      some (encodeURIComponent (jsTrim resourceType)) ∧
    (subscribe c b t pid resourceType { pidRequired := some false }).trace.method =
      some "POST" ∧
    (subscribe c b t pid resourceType
        { method := some "GET", pidRequired := some false }).trace.method = some "GET" := by
  have h := request_reaches_transport_no_pid_required c b t pid
    (spreadOptions { pidRequired := some false } resourceType "POST" true)
    htype (by simp [spreadOptions]) htok
  have h2 := request_reaches_transport_no_pid_required c b t pid
    (spreadOptions { method := some "GET", pidRequired := some false } resourceType "POST" true)
    htype (by simp [spreadOptions]) htok
  refine ⟨?_, ?_, ?_, ?_, ?_⟩ <;> unfold subscribe <;> [rw [h]; rw [h]; rw [h]; rw [h]; rw [h2]] <;>
    dsimp only <;> split <;>
    first
      | rfl
      | (split <;> simp [Trace.endpoint, Trace.method, spreadOptions])

/-- Witness for C10: a `null` PID with `pidRequired: false` reaches the
transport at the bare resource-type endpoint. -/
theorem C10_witness :
    (subscribe sampleClient sampleBehavior sampleTransport
        none "datasetChanges" { pidRequired := some false }).trace.validatorCalls = 0 ∧
    (subscribe sampleClient sampleBehavior sampleTransport
        none "datasetChanges" { pidRequired := some false }).trace.transportCalls = 1 ∧
    (subscribe sampleClient sampleBehavior sampleTransport
        none "datasetChanges" { pidRequired := some false }).trace.endpoint =
      some (encodeURIComponent (jsTrim "datasetChanges")) := by
  have h := C10_spread_allows_overrides sampleClient sampleBehavior sampleTransport
    none "datasetChanges" (by decide) (by decide) (by decide)
  exact ⟨h.1, h.2.1, h.2.2.1⟩

end NotificationClient

namespace NotificationService

/-- Characterization of a legacy `_request` call that reaches the
transport: merged per-key headers, untrimmed endpoint components. -/
theorem _request_reaches_transport (c : Client) (b : Behavior) (t : Transport)
    (pid : Option String) (opts : InternalRequestOptions)
    (htype : opts.resourceType ∈ c.resourceTypes)
    (hpr : opts.pidRequired.getD true = true)
    (hpid : pidFalsy pid = false)
    (hval : b.validatePID (pid.getD "") = true)
    (htok : tokenFalsy b.getToken = false) :
    _request c b t pid opts =
      (let endpoint :=
         encodeURIComponent opts.resourceType ++ "/" ++ encodeURIComponent (pid.getD "")
       let method := opts.method.getD "GET"
       let sent :=
         objSpread [("Authorization", "Bearer " ++ b.getToken.getD "")] (opts.headers.getD [])
       let response := t endpoint method sent
       let callTrace : Trace :=
         { validatorCalls := 1, tokenCalls := 1, transportCalls := 1,
           transportArgs := some (endpoint, method, sent) }
       if response.status = 204 ∨ response.status = 205 ∨ response.status = 304 then
         ⟨.ok none, callTrace⟩
       else
         match response.body with
         | .ok v => ⟨.ok (some v), { callTrace with jsonCalls := 1 }⟩
         | .error e => ⟨.error (.parseError e), { callTrace with jsonCalls := 1 }⟩) := by
  unfold _request
  simp [htype, hpr, hpid, hval, htok]

/-- An Authorization header spread first survives a per-key object merge
whenever the second object carries no `Authorization` key. -/
theorem auth_mem_objSpread (x : String) (hs : Headers)
    (hna : hasAuthorizationKey hs = false) :
    ("Authorization", x) ∈ objSpread [("Authorization", x)] hs := by
  have hall : ∀ q ∈ hs, ¬(q.1 == "Authorization") = true := by
    intro q hq
    have := List.any_eq_false.mp hna q hq
    simpa using this
  have hfind : hs.find? (fun q => q.1 == "Authorization") = none := by
    rw [List.find?_eq_none]
    exact hall
  unfold objSpread
  simp [hfind]

end NotificationService

/-- C2 counterexample: in `NotificationClient` a successful call whose
caller options carry a headers object without an `Authorization` key does
NOT send the Authorization header — the caller object replaces the
library headers wholesale. -/
theorem C2_counterexample :
    (∃ v, (NotificationClient.subscribe sampleClient sampleBehavior sampleTransport
        (some "pid-123") "datasetChanges"
        { headers := some [("X-Custom", "1")] }).result = Except.ok v) ∧
    hasAuthorizationKey [("X-Custom", "1")] = false ∧
    (NotificationClient.subscribe sampleClient sampleBehavior sampleTransport
        (some "pid-123") "datasetChanges"
        { headers := some [("X-Custom", "1")] }).trace.sentHeaders =
      some [("X-Custom", "1")] := by
  exact ⟨⟨some "sub", by decide⟩, by decide, by decide⟩

/-- C2 (amended): every successful `NotificationClient` call with no
caller headers sends exactly `Authorization: Bearer <token>`; a caller
headers object replaces the library headers wholesale (Authorization is
dropped unless the caller includes the key); in the legacy
`NotificationService._request` the caller headers instead merge per key
over the Authorization header, which therefore survives whenever the
caller headers contain no `Authorization` key. -/
theorem C2_authorization_header_contract (c : Client) (b : Behavior) (t : Transport)
    (pid : Option String) (opts opts2 : InternalRequestOptions) (tok : String) (h : Headers)
    (htok : b.getToken = some tok) :
    (opts.headers = none →
      (∃ v, (NotificationClient.request c b t pid opts).result = Except.ok v) →
      (NotificationClient.request c b t pid opts).trace.sentHeaders =
        some [("Authorization", "Bearer " ++ tok)]) ∧
    (opts.headers = some h →
      (∃ v, (NotificationClient.request c b t pid opts).result = Except.ok v) →
      (NotificationClient.request c b t pid opts).trace.sentHeaders = some h) ∧
    (opts2.headers = some h → opts2.resourceType ∈ c.resourceTypes →
      opts2.pidRequired.getD true = true → NotificationService.pidFalsy pid = false →
      b.validatePID (pid.getD "") = true → tok ≠ "" →
      (NotificationService._request c b t pid opts2).trace.sentHeaders =
        some (NotificationService.objSpread [("Authorization", "Bearer " ++ tok)] h) ∧
      (hasAuthorizationKey h = false →
        ("Authorization", "Bearer " ++ tok) ∈
          NotificationService.objSpread [("Authorization", "Bearer " ++ tok)] h)) := by
  refine ⟨?_, ?_, ?_⟩
  · intro hnone hok
    have hs := NotificationClient.request_ok_sentHeaders c b t pid opts hok
    rw [hs, hnone, htok]
    simp
  · intro hsome hok
    have hs := NotificationClient.request_ok_sentHeaders c b t pid opts hok
    rw [hs, hsome]
    simp
  · intro hsome htype hpr hpid hval htokne
    have htokf : tokenFalsy b.getToken = false := by
      rw [htok]
      simp [tokenFalsy, htokne]
    have hr := NotificationService._request_reaches_transport c b t pid opts2
      htype hpr hpid hval htokf
    constructor
    · rw [hr]
      dsimp only
      rw [hsome, htok]
      unfold Trace.sentHeaders
      split <;>
        first
          | (split <;> simp)
          | simp
    · intro hna
      exact NotificationService.auth_mem_objSpread ("Bearer " ++ tok) h hna

/-- Witness for C2 (amended): concrete calls for the no-headers case, the
wholesale-replacement case, and the legacy per-key merge. -/
theorem C2_witness :
    (NotificationClient.request sampleClient sampleBehavior sampleTransport
        (some "pid-123") { resourceType := "datasetChanges" }).trace.sentHeaders =
      some [("Authorization", "Bearer token-123")] ∧
    (NotificationClient.request sampleClient sampleBehavior sampleTransport
        (some "pid-123")
        { resourceType := "datasetChanges",
          headers := some [("X-Custom", "1")] }).trace.sentHeaders =
      some [("X-Custom", "1")] ∧
    (NotificationService._request sampleClient sampleBehavior sampleTransport
        (some "pid-123")
        { resourceType := "datasetChanges",
          headers := some [("X-Custom", "1")] }).trace.sentHeaders =
      some [("Authorization", "Bearer token-123"), ("X-Custom", "1")] ∧
    ("Authorization", "Bearer token-123") ∈
      NotificationService.objSpread [("Authorization", "Bearer token-123")] [("X-Custom", "1")] := by
  have h1 := (C2_authorization_header_contract sampleClient sampleBehavior sampleTransport
    (some "pid-123") { resourceType := "datasetChanges" }
    { resourceType := "datasetChanges", headers := some [("X-Custom", "1")] }
    "token-123" [("X-Custom", "1")] rfl)
  refine ⟨h1.1 rfl ⟨some "sub", by decide⟩, ?_, ?_, ?_⟩
  · have h2 := (C2_authorization_header_contract sampleClient sampleBehavior sampleTransport
      (some "pid-123")
      { resourceType := "datasetChanges", headers := some [("X-Custom", "1")] }
      { resourceType := "datasetChanges", headers := some [("X-Custom", "1")] }
      "token-123" [("X-Custom", "1")] rfl)
    exact h2.2.1 rfl ⟨some "sub", by decide⟩
  · have h3 := (h1.2.2 rfl (by decide) (by decide) (by decide) (by decide) (by decide)).1
    rw [h3]
    decide
  · exact (h1.2.2 rfl (by decide) (by decide) (by decide) (by decide) (by decide)).2 (by decide)

end DataoneNotifications
